import Mathlib

/-!
Verification of the Maxwell potential-operator factory functions of
`bempp/api/operators/potential/maxwell.py` against the repository's
design specification.

The visible source file is a thin factory: each of `electric_field` and
`magnetic_field` builds an `OperatorDescriptor`, hands it together with
the remaining arguments to a `PotentialAssembler`, and returns a
`PotentialOperator` wrapping that assembler.  The collaborator classes
(`OperatorDescriptor`, `PotentialAssembler`, `PotentialOperator`) live in
modules of the repository that are not part of the excerpt; where their
behaviour decides a claim they are modelled from the specification text
and marked as such in their doc comments.

Scalars (wavenumber components, point coordinates, coefficient vectors)
are modelled as rationals: none of the verified properties depend on
floating-point rounding, only on which values are stored where.
-/

namespace Bempp

/-- A complex scalar, given by its real and imaginary parts.  `np.real`
and `np.imag` project onto the two components. -/
structure Cplx where
  re : ℚ
  im : ℚ
deriving DecidableEq, Repr

/-- Embedding of `numpy.real` applied to a complex scalar. -/
def np_real (z : Cplx) : ℚ := z.re

/-- Embedding of `numpy.imag` applied to a complex scalar. -/
def np_imag (z : Cplx) : ℚ := z.im

/-- Modelled from the spec: the numerical precision tag is
`single` or `double`; the nullable value (`Option.none` in this
embedding) means "use the backend default". -/
inductive Precision where
  | single
  | double
deriving DecidableEq, Repr

/-- Modelled from the spec: a boundary function-space discretization is
an external collaborator treated as opaque; only its identity matters to
the factory layer. -/
structure Space where
  space_id : Nat
deriving DecidableEq, Repr

/-- Modelled from the spec: the `device_interface` argument is an opaque
handle to an accelerator context; nullable meaning CPU-only. -/
structure DeviceInterface where
  device_id : Nat
deriving DecidableEq, Repr

/-- Modelled from the spec: the extra `parameters` object passed through
to the assembler backend, treated as opaque. -/
structure Parameters where
  parameters_id : Nat
deriving DecidableEq, Repr

/-- Modelled from the spec: the singular-part descriptor describes a
correction term for near-singular integration; the factories only ever
store the null value, so its payload is opaque. -/
structure SingularPart where
  singular_id : Nat
deriving DecidableEq, Repr

/-- The `OperatorDescriptor` value object, field for field as constructed
positionally in `maxwell.py`: identifier, ordered numeric option list,
kernel-type tag, assembly-type tag, nullable precision tag, complex flag,
nullable singular part, and kernel dimension. -/
structure OperatorDescriptor where
  identifier : String
  options : List ℚ
  kernel_type : String
  assembly_type : String
  precision : Option Precision
  is_complex : Bool
  singular_part : Option SingularPart
  kernel_dimension : Nat
deriving DecidableEq, Repr

/-- Modelled from the spec: the taxonomy of errors surfaced by this core
(configuration errors, shape/dimension mismatches, numerical errors). -/
inductive BemppError where
  | invalidConfiguration
  | dimensionMismatch
  | numericalError
deriving DecidableEq, Repr

/-- Modelled from the spec: the recognized set of assembler backend
names; `"dense"` is the only backend the specification names for
potential operators. -/
def recognized_assemblers : List String := ["dense"]

/-- The evaluation points argument: an array of vectors, each intended
to be a point of three-dimensional space. -/
abbrev Points : Type := List (List ℚ)

/-- Modelled from the spec: the points array is well-formed when it is
non-empty and every entry is a 3-vector. -/
def points_wellformed (points : Points) : Prop :=
  points ≠ [] ∧ ∀ v ∈ points, v.length = 3

instance (points : Points) : Decidable (points_wellformed points) := by
  unfold points_wellformed
  infer_instance

/-- The `PotentialAssembler` record: binds a space, the evaluation
points, an operator descriptor, and the optional device/backend
selection and extra parameters, exactly the six constructor arguments
passed in `maxwell.py`. -/
structure PotentialAssembler where
  space : Space
  points : Points
  operator_descriptor : OperatorDescriptor
  device_interface : Option DeviceInterface
  assembler : String
  parameters : Option Parameters
deriving DecidableEq, Repr

/-- Modelled from the spec: `PotentialAssembler` construction fails with
an invalid-configuration error if the assembler name is not in the
recognized set, or if the evaluation points array is empty or malformed
(wrong dimensionality); otherwise it stores its arguments verbatim. -/
def PotentialAssembler.make (space : Space) (points : Points)
    (operator_descriptor : OperatorDescriptor)
    (device_interface : Option DeviceInterface) (assembler : String)
    (parameters : Option Parameters) :
    Except BemppError PotentialAssembler :=
  if assembler ∈ recognized_assemblers then
    if points_wellformed points then
      .ok ⟨space, points, operator_descriptor, device_interface, assembler,
        parameters⟩
    else .error .invalidConfiguration
  else .error .invalidConfiguration

/-- The `PotentialOperator` wrapper: owns exactly one assembler. -/
structure PotentialOperator where
  assembler : PotentialAssembler
deriving DecidableEq, Repr

/-- The descriptor built inside `electric_field`: its eight positional
constructor arguments transcribed from the source. -/
def electric_field_descriptor (wavenumber : Cplx)
    (precision : Option Precision) : OperatorDescriptor :=
  { identifier := "maxwell_electric_field_potential"
    options := [np_real wavenumber, np_imag wavenumber]
    kernel_type := "helmholtz_single_layer"
    assembly_type := "maxwell_electric_field"
    precision := precision
    is_complex := true
    singular_part := none
    kernel_dimension := 3 }

/-- The descriptor built inside `magnetic_field`: its eight positional
constructor arguments transcribed from the source. -/
def magnetic_field_descriptor (wavenumber : Cplx)
    (precision : Option Precision) : OperatorDescriptor :=
  { identifier := "maxwell_magnetic_field_potential"
    options := [np_real wavenumber, np_imag wavenumber]
    kernel_type := "helmholtz_single_layer"
    assembly_type := "maxwell_magnetic_field"
    precision := precision
    is_complex := true
    singular_part := none
    kernel_dimension := 3 }

/-- `electric_field` from `maxwell.py`: builds the descriptor, constructs
one `PotentialAssembler` from the forwarded arguments, and returns one
`PotentialOperator` wrapping it.  Construction of the assembler may fail,
in which case no operator is returned. -/
def electric_field (space : Space) (points : Points) (wavenumber : Cplx)
    (parameters : Option Parameters) (assembler : String)
    (device_interface : Option DeviceInterface)
    (precision : Option Precision) :
    Except BemppError PotentialOperator :=
  (PotentialAssembler.make space points
      (electric_field_descriptor wavenumber precision)
      device_interface assembler parameters).map
    fun a => ⟨a⟩

/-- `magnetic_field` from `maxwell.py`: builds the descriptor, constructs
one `PotentialAssembler` from the forwarded arguments, and returns one
`PotentialOperator` wrapping it. -/
def magnetic_field (space : Space) (points : Points) (wavenumber : Cplx)
    (parameters : Option Parameters) (assembler : String)
    (device_interface : Option DeviceInterface)
    (precision : Option Precision) :
    Except BemppError PotentialOperator :=
  (PotentialAssembler.make space points
      (magnetic_field_descriptor wavenumber precision)
      device_interface assembler parameters).map
    fun a => ⟨a⟩

/-- A call site for `electric_field`, with `Option.none` marking an
optional argument the caller omitted; per the Python signature, omitted
arguments take the defaults on the `def` line: `parameters=None`,
`assembler="dense"`, `device_interface=None`, `precision=None`. -/
def electric_field_call (space : Space) (points : Points)
    (wavenumber : Cplx) (parametersArg : Option (Option Parameters))
    (assemblerArg : Option String)
    (deviceArg : Option (Option DeviceInterface))
    (precisionArg : Option (Option Precision)) :
    Except BemppError PotentialOperator :=
  electric_field space points wavenumber (parametersArg.getD none)
    (assemblerArg.getD "dense") (deviceArg.getD none)
    (precisionArg.getD none)

/-- A call site for `magnetic_field`, with `Option.none` marking an
optional argument the caller omitted; omitted arguments take the
defaults on the `def` line. -/
def magnetic_field_call (space : Space) (points : Points)
    (wavenumber : Cplx) (parametersArg : Option (Option Parameters))
    (assemblerArg : Option String)
    (deviceArg : Option (Option DeviceInterface))
    (precisionArg : Option (Option Precision)) :
    Except BemppError PotentialOperator :=
  magnetic_field space points wavenumber (parametersArg.getD none)
    (assemblerArg.getD "dense") (deviceArg.getD none)
    (precisionArg.getD none)

/-- Modelled from the spec: the lazy-assembly state of a potential
assembler, one of unassembled, assembled (with the memoized matrix), or
faulted (with the original assembly error). -/
inductive AssemblyState where
  | unassembled
  | assembled (mat : List (List ℚ))
  | faulted (e : BemppError)
deriving DecidableEq, Repr

/-- Modelled from the spec: the runtime state of a potential assembler,
pairing its configuration (which holds the shared `OperatorDescriptor`)
with its cached assembly state. -/
structure AssemblerState where
  config : PotentialAssembler
  cache : AssemblyState
deriving DecidableEq, Repr

/-- Modelled from the spec: an `apply` call triggers the assembly
transition if unassembled, memoizes the result, and transitions to
faulted on assembly error so subsequent calls fail fast; once assembled
or faulted the state is untouched.  The numerical assembly routine lives
in an unseen collaborator module, so the step is parametric in it. -/
def apply_step
    (assemble : PotentialAssembler → Except BemppError (List (List ℚ)))
    (s : AssemblerState) : AssemblerState :=
  match s.cache with
  | .unassembled =>
      match assemble s.config with
      | .ok m => { s with cache := .assembled m }
      | .error e => { s with cache := .faulted e }
  | _ => s

/-- The state after a sequence of `n` apply calls on an assembler. -/
def apply_iter
    (assemble : PotentialAssembler → Except BemppError (List (List ℚ)))
    (s : AssemblerState) : Nat → AssemblerState
  | 0 => s
  | n + 1 => apply_step assemble (apply_iter assemble s n)

/-- `electric_field` unfolded: it validates via the assembler
constructor and, on success, wraps the verbatim arguments and the
electric-field descriptor. -/
theorem electric_field_eq (space : Space) (points : Points)
    (wavenumber : Cplx) (parameters : Option Parameters)
    (assembler : String) (device_interface : Option DeviceInterface)
    (precision : Option Precision) :
    electric_field space points wavenumber parameters assembler
        device_interface precision =
      if assembler ∈ recognized_assemblers then
        if points_wellformed points then
          .ok ⟨⟨space, points,
            electric_field_descriptor wavenumber precision,
            device_interface, assembler, parameters⟩⟩
        else .error .invalidConfiguration
      else .error .invalidConfiguration := by
  by_cases h1 : assembler ∈ recognized_assemblers <;>
    by_cases h2 : points_wellformed points <;>
    simp [electric_field, PotentialAssembler.make, Except.map, h1, h2]

/-- `magnetic_field` unfolded: it validates via the assembler
constructor and, on success, wraps the verbatim arguments and the
magnetic-field descriptor. -/
theorem magnetic_field_eq (space : Space) (points : Points)
    (wavenumber : Cplx) (parameters : Option Parameters)
    (assembler : String) (device_interface : Option DeviceInterface)
    (precision : Option Precision) :
    magnetic_field space points wavenumber parameters assembler
        device_interface precision =
      if assembler ∈ recognized_assemblers then
        if points_wellformed points then
          .ok ⟨⟨space, points,
            magnetic_field_descriptor wavenumber precision,
            device_interface, assembler, parameters⟩⟩
        else .error .invalidConfiguration
      else .error .invalidConfiguration := by
  by_cases h1 : assembler ∈ recognized_assemblers <;>
    by_cases h2 : points_wellformed points <;>
    simp [magnetic_field, PotentialAssembler.make, Except.map, h1, h2]

/-- A successful `electric_field` call returns exactly the operator
wrapping the assembler built from the forwarded arguments. -/
theorem electric_field_ok {space : Space} {points : Points}
    {wavenumber : Cplx} {parameters : Option Parameters}
    {assembler : String} {device_interface : Option DeviceInterface}
    {precision : Option Precision} {op : PotentialOperator}
    (h : electric_field space points wavenumber parameters assembler
        device_interface precision = .ok op) :
    op = ⟨⟨space, points, electric_field_descriptor wavenumber precision,
      device_interface, assembler, parameters⟩⟩ := by
  rw [electric_field_eq] at h
  split at h
  · split at h
    · exact (Except.ok.inj h).symm
    · cases h
  · cases h

/-- A successful `magnetic_field` call returns exactly the operator
wrapping the assembler built from the forwarded arguments. -/
theorem magnetic_field_ok {space : Space} {points : Points}
    {wavenumber : Cplx} {parameters : Option Parameters}
    {assembler : String} {device_interface : Option DeviceInterface}
    {precision : Option Precision} {op : PotentialOperator}
    (h : magnetic_field space points wavenumber parameters assembler
        device_interface precision = .ok op) :
    op = ⟨⟨space, points, magnetic_field_descriptor wavenumber precision,
      device_interface, assembler, parameters⟩⟩ := by
  rw [magnetic_field_eq] at h
  split at h
  · split at h
    · exact (Except.ok.inj h).symm
    · cases h
  · cases h

/-- A single apply step never changes the assembler configuration. -/
theorem apply_step_config
    (assemble : PotentialAssembler → Except BemppError (List (List ℚ)))
    (s : AssemblerState) : (apply_step assemble s).config = s.config := by
  unfold apply_step
  split
  · split <;> rfl
  · rfl

/-- C1: for every wavenumber and every choice of the remaining
arguments, the descriptor constructed by `electric_field` and by
`magnetic_field` stores as its options field the two-element ordered
list [real part of the wavenumber, imaginary part of the wavenumber],
in that order; the options list holds real scalars only, so no raw
complex number is stored on the descriptor. -/
theorem C1_options_split_wavenumber
    (s1 s2 : Space) (p1 p2 : Points) (w : Cplx)
    (params1 params2 : Option Parameters) (asm1 asm2 : String)
    (dev1 dev2 : Option DeviceInterface) (prec1 prec2 : Option Precision)
    (ope opm : PotentialOperator)
    (he : electric_field s1 p1 w params1 asm1 dev1 prec1 = .ok ope)
    (hm : magnetic_field s2 p2 w params2 asm2 dev2 prec2 = .ok opm) :
    ope.assembler.operator_descriptor.options = [np_real w, np_imag w] ∧
    opm.assembler.operator_descriptor.options = [np_real w, np_imag w] := by
  rw [electric_field_ok he, magnetic_field_ok hm]
  exact ⟨rfl, rfl⟩

/-- C1 witness at a concrete call of each factory. -/
theorem C1_options_split_wavenumber_witness :
    (PotentialOperator.mk ⟨⟨0⟩, [[0, 0, 0]],
        electric_field_descriptor ⟨1, 2⟩ none, none, "dense",
        none⟩).assembler.operator_descriptor.options =
      [np_real ⟨1, 2⟩, np_imag ⟨1, 2⟩] ∧
    (PotentialOperator.mk ⟨⟨0⟩, [[0, 0, 0]],
        magnetic_field_descriptor ⟨1, 2⟩ none, none, "dense",
        none⟩).assembler.operator_descriptor.options =
      [np_real ⟨1, 2⟩, np_imag ⟨1, 2⟩] :=
  C1_options_split_wavenumber ⟨0⟩ ⟨0⟩ [[0, 0, 0]] [[0, 0, 0]] ⟨1, 2⟩
    none none "dense" "dense" none none none none _ _ rfl rfl

/-- C2: each factory fails with the invalid-configuration error, with no
operator returned, when the assembler name is not recognized or the
points array is empty or not a sequence of 3-vectors; for recognized
names and well-formed non-empty points, construction succeeds. -/
theorem C2_construction_validation (space : Space) (points : Points)
    (wavenumber : Cplx) (parameters : Option Parameters)
    (assembler : String) (device_interface : Option DeviceInterface)
    (precision : Option Precision) :
    ((assembler ∉ recognized_assemblers ∨ ¬ points_wellformed points) →
      electric_field space points wavenumber parameters assembler
          device_interface precision = .error .invalidConfiguration ∧
      magnetic_field space points wavenumber parameters assembler
          device_interface precision = .error .invalidConfiguration) ∧
    (assembler ∈ recognized_assemblers → points_wellformed points →
      (∃ op, electric_field space points wavenumber parameters assembler
          device_interface precision = .ok op) ∧
      (∃ op, magnetic_field space points wavenumber parameters assembler
          device_interface precision = .ok op)) := by
  constructor
  · intro h
    rw [electric_field_eq, magnetic_field_eq]
    rcases h with h | h
    · rw [if_neg h, if_neg h]
      exact ⟨rfl, rfl⟩
    · by_cases h1 : assembler ∈ recognized_assemblers
      · rw [if_pos h1, if_neg h, if_pos h1, if_neg h]
        exact ⟨rfl, rfl⟩
      · rw [if_neg h1, if_neg h1]
        exact ⟨rfl, rfl⟩
  · intro h1 h2
    rw [electric_field_eq, magnetic_field_eq, if_pos h1, if_pos h2,
      if_pos h1, if_pos h2]
    exact ⟨⟨_, rfl⟩, ⟨_, rfl⟩⟩

/-- C2 witness: a rejected empty points array and an accepted
well-formed call, for both factories. -/
theorem C2_construction_validation_witness :
    (electric_field ⟨0⟩ [] ⟨1, 0⟩ none "dense" none none =
        .error .invalidConfiguration ∧
      magnetic_field ⟨0⟩ [] ⟨1, 0⟩ none "dense" none none =
        .error .invalidConfiguration) ∧
    ((∃ op, electric_field ⟨0⟩ [[0, 0, 0]] ⟨1, 0⟩ none "dense" none none =
        .ok op) ∧
      (∃ op, magnetic_field ⟨0⟩ [[0, 0, 0]] ⟨1, 0⟩ none "dense" none none =
        .ok op)) :=
  ⟨(C2_construction_validation ⟨0⟩ [] ⟨1, 0⟩ none "dense" none none).1
      (Or.inr (by decide)),
    (C2_construction_validation ⟨0⟩ [[0, 0, 0]] ⟨1, 0⟩ none "dense" none
        none).2 (by decide) (by decide)⟩

/-- C3: the kernel-type tag of the descriptor constructed by
`electric_field` equals the kernel-type tag of the descriptor
constructed by `magnetic_field`: both are the single-layer Helmholtz
tag. -/
theorem C3_kernel_type_shared
    (s1 s2 : Space) (p1 p2 : Points) (w1 w2 : Cplx)
    (params1 params2 : Option Parameters) (asm1 asm2 : String)
    (dev1 dev2 : Option DeviceInterface) (prec1 prec2 : Option Precision)
    (ope opm : PotentialOperator)
    (he : electric_field s1 p1 w1 params1 asm1 dev1 prec1 = .ok ope)
    (hm : magnetic_field s2 p2 w2 params2 asm2 dev2 prec2 = .ok opm) :
    ope.assembler.operator_descriptor.kernel_type =
        "helmholtz_single_layer" ∧
    opm.assembler.operator_descriptor.kernel_type =
        "helmholtz_single_layer" ∧
    ope.assembler.operator_descriptor.kernel_type =
        opm.assembler.operator_descriptor.kernel_type := by
  rw [electric_field_ok he, magnetic_field_ok hm]
  exact ⟨rfl, rfl, rfl⟩

/-- C3 witness at a concrete call of each factory. -/
theorem C3_kernel_type_shared_witness :
    (PotentialOperator.mk ⟨⟨0⟩, [[0, 0, 0]],
        electric_field_descriptor ⟨1, 0⟩ none, none, "dense",
        none⟩).assembler.operator_descriptor.kernel_type =
      "helmholtz_single_layer" ∧
    (PotentialOperator.mk ⟨⟨0⟩, [[0, 0, 0]],
        magnetic_field_descriptor ⟨1, 0⟩ none, none, "dense",
        none⟩).assembler.operator_descriptor.kernel_type =
      "helmholtz_single_layer" ∧
    (PotentialOperator.mk ⟨⟨0⟩, [[0, 0, 0]],
        electric_field_descriptor ⟨1, 0⟩ none, none, "dense",
        none⟩).assembler.operator_descriptor.kernel_type =
      (PotentialOperator.mk ⟨⟨0⟩, [[0, 0, 0]],
        magnetic_field_descriptor ⟨1, 0⟩ none, none, "dense",
        none⟩).assembler.operator_descriptor.kernel_type :=
  C3_kernel_type_shared ⟨0⟩ ⟨0⟩ [[0, 0, 0]] [[0, 0, 0]] ⟨1, 0⟩ ⟨1, 0⟩
    none none "dense" "dense" none none none none _ _ rfl rfl

/-- C4: the assembly-type tag of the descriptor constructed by
`electric_field` is the electric tag, the one constructed by
`magnetic_field` is the magnetic tag, and the two differ. -/
theorem C4_assembly_type_distinct
    (s1 s2 : Space) (p1 p2 : Points) (w1 w2 : Cplx)
    (params1 params2 : Option Parameters) (asm1 asm2 : String)
    (dev1 dev2 : Option DeviceInterface) (prec1 prec2 : Option Precision)
    (ope opm : PotentialOperator)
    (he : electric_field s1 p1 w1 params1 asm1 dev1 prec1 = .ok ope)
    (hm : magnetic_field s2 p2 w2 params2 asm2 dev2 prec2 = .ok opm) :
    ope.assembler.operator_descriptor.assembly_type =
        "maxwell_electric_field" ∧
    opm.assembler.operator_descriptor.assembly_type =
        "maxwell_magnetic_field" ∧
    ope.assembler.operator_descriptor.assembly_type ≠
        opm.assembler.operator_descriptor.assembly_type := by
  rw [electric_field_ok he, magnetic_field_ok hm]
  refine ⟨rfl, rfl, ?_⟩
  show "maxwell_electric_field" ≠ "maxwell_magnetic_field"
  decide

/-- C4 witness at a concrete call of each factory. -/
theorem C4_assembly_type_distinct_witness :
    (PotentialOperator.mk ⟨⟨0⟩, [[0, 0, 0]],
        electric_field_descriptor ⟨1, 0⟩ none, none, "dense",
        none⟩).assembler.operator_descriptor.assembly_type =
      "maxwell_electric_field" ∧
    (PotentialOperator.mk ⟨⟨0⟩, [[0, 0, 0]],
        magnetic_field_descriptor ⟨1, 0⟩ none, none, "dense",
        none⟩).assembler.operator_descriptor.assembly_type =
      "maxwell_magnetic_field" ∧
    (PotentialOperator.mk ⟨⟨0⟩, [[0, 0, 0]],
        electric_field_descriptor ⟨1, 0⟩ none, none, "dense",
        none⟩).assembler.operator_descriptor.assembly_type ≠
      (PotentialOperator.mk ⟨⟨0⟩, [[0, 0, 0]],
        magnetic_field_descriptor ⟨1, 0⟩ none, none, "dense",
        none⟩).assembler.operator_descriptor.assembly_type :=
  C4_assembly_type_distinct ⟨0⟩ ⟨0⟩ [[0, 0, 0]] [[0, 0, 0]] ⟨1, 0⟩ ⟨1, 0⟩
    none none "dense" "dense" none none none none _ _ rfl rfl

/-- C5: every descriptor constructed by either factory has kernel
dimension 3, the complex-valued flag set to true, and a null singular
part, regardless of wavenumber, space, points or optional arguments. -/
theorem C5_fixed_fields
    (s1 s2 : Space) (p1 p2 : Points) (w1 w2 : Cplx)
    (params1 params2 : Option Parameters) (asm1 asm2 : String)
    (dev1 dev2 : Option DeviceInterface) (prec1 prec2 : Option Precision)
    (ope opm : PotentialOperator)
    (he : electric_field s1 p1 w1 params1 asm1 dev1 prec1 = .ok ope)
    (hm : magnetic_field s2 p2 w2 params2 asm2 dev2 prec2 = .ok opm) :
    (ope.assembler.operator_descriptor.kernel_dimension = 3 ∧
      ope.assembler.operator_descriptor.is_complex = true ∧
      ope.assembler.operator_descriptor.singular_part = none) ∧
    (opm.assembler.operator_descriptor.kernel_dimension = 3 ∧
      opm.assembler.operator_descriptor.is_complex = true ∧
      opm.assembler.operator_descriptor.singular_part = none) := by
  rw [electric_field_ok he, magnetic_field_ok hm]
  exact ⟨⟨rfl, rfl, rfl⟩, ⟨rfl, rfl, rfl⟩⟩

/-- C5 witness at a concrete call of each factory. -/
theorem C5_fixed_fields_witness :
    ((PotentialOperator.mk ⟨⟨0⟩, [[0, 0, 0]],
        electric_field_descriptor ⟨1, 0⟩ none, none, "dense",
        none⟩).assembler.operator_descriptor.kernel_dimension = 3 ∧
      (PotentialOperator.mk ⟨⟨0⟩, [[0, 0, 0]],
        electric_field_descriptor ⟨1, 0⟩ none, none, "dense",
        none⟩).assembler.operator_descriptor.is_complex = true ∧
      (PotentialOperator.mk ⟨⟨0⟩, [[0, 0, 0]],
        electric_field_descriptor ⟨1, 0⟩ none, none, "dense",
        none⟩).assembler.operator_descriptor.singular_part = none) ∧
    ((PotentialOperator.mk ⟨⟨0⟩, [[0, 0, 0]],
        magnetic_field_descriptor ⟨1, 0⟩ none, none, "dense",
        none⟩).assembler.operator_descriptor.kernel_dimension = 3 ∧
      (PotentialOperator.mk ⟨⟨0⟩, [[0, 0, 0]],
        magnetic_field_descriptor ⟨1, 0⟩ none, none, "dense",
        none⟩).assembler.operator_descriptor.is_complex = true ∧
      (PotentialOperator.mk ⟨⟨0⟩, [[0, 0, 0]],
        magnetic_field_descriptor ⟨1, 0⟩ none, none, "dense",
        none⟩).assembler.operator_descriptor.singular_part = none) :=
  C5_fixed_fields ⟨0⟩ ⟨0⟩ [[0, 0, 0]] [[0, 0, 0]] ⟨1, 0⟩ ⟨1, 0⟩
    none none "dense" "dense" none none none none _ _ rfl rfl

/-- C6: descriptor construction is pure and deterministic: a descriptor
is a value determined by its field tuple, so two descriptors agreeing on
identifier, options, kernel type, assembly type, precision, complex
flag, singular part and kernel dimension are equal; and each factory
applied twice to one and the same argument tuple yields value-equal
results. -/
theorem C6_value_equality :
    (∀ d1 d2 : OperatorDescriptor,
      d1.identifier = d2.identifier → d1.options = d2.options →
      d1.kernel_type = d2.kernel_type →
      d1.assembly_type = d2.assembly_type →
      d1.precision = d2.precision → d1.is_complex = d2.is_complex →
      d1.singular_part = d2.singular_part →
      d1.kernel_dimension = d2.kernel_dimension → d1 = d2) ∧
    (∀ (space : Space) (points : Points) (wavenumber : Cplx)
      (parameters : Option Parameters) (assembler : String)
      (device_interface : Option DeviceInterface)
      (precision : Option Precision),
      electric_field space points wavenumber parameters assembler
          device_interface precision =
        electric_field space points wavenumber parameters assembler
          device_interface precision ∧
      magnetic_field space points wavenumber parameters assembler
          device_interface precision =
        magnetic_field space points wavenumber parameters assembler
          device_interface precision) := by
  refine ⟨?_, fun _ _ _ _ _ _ _ => ⟨rfl, rfl⟩⟩
  rintro ⟨⟩ ⟨⟩ h1 h2 h3 h4 h5 h6 h7 h8
  simp_all

/-- C6 witness: rebuilding the electric-field descriptor from its own
field tuple yields an equal descriptor. -/
theorem C6_value_equality_witness :
    OperatorDescriptor.mk "maxwell_electric_field_potential" [1, 0]
        "helmholtz_single_layer" "maxwell_electric_field" none true none
        3 =
      electric_field_descriptor ⟨1, 0⟩ none :=
  C6_value_equality.1
    (OperatorDescriptor.mk "maxwell_electric_field_potential" [1, 0]
      "helmholtz_single_layer" "maxwell_electric_field" none true none 3)
    (electric_field_descriptor ⟨1, 0⟩ none)
    rfl rfl rfl rfl rfl rfl rfl rfl

/-- C7: the operator descriptor held by an assembler is immutable once
constructed: an arbitrary sequence of apply operations, for any assembly
routine (which may memoize an assembled matrix or record a fault), never
changes the assembler configuration, and in particular leaves every
field of the shared descriptor unchanged. -/
theorem C7_descriptor_immutable
    (assemble : PotentialAssembler → Except BemppError (List (List ℚ)))
    (s : AssemblerState) (n : Nat) :
    (apply_iter assemble s n).config = s.config ∧
    (apply_iter assemble s n).config.operator_descriptor =
      s.config.operator_descriptor := by
  have key : ∀ m, (apply_iter assemble s m).config = s.config := by
    intro m
    induction m with
    | zero => rfl
    | succ k ih =>
        show (apply_step assemble (apply_iter assemble s k)).config =
          s.config
        rw [apply_step_config, ih]
  exact ⟨key n, by rw [key n]⟩

/-- C8: the descriptor built by either factory depends only on the
wavenumber and the precision: for a fixed (wavenumber, precision) pair,
varying space, points, parameters, assembler and device interface leaves
every field of the constructed descriptor unchanged. -/
theorem C8_descriptor_depends_only_on_wavenumber_precision
    (s1 s2 : Space) (p1 p2 : Points) (w : Cplx)
    (params1 params2 : Option Parameters) (asm1 asm2 : String)
    (dev1 dev2 : Option DeviceInterface) (prec : Option Precision)
    (op1 op2 op3 op4 : PotentialOperator)
    (h1 : electric_field s1 p1 w params1 asm1 dev1 prec = .ok op1)
    (h2 : electric_field s2 p2 w params2 asm2 dev2 prec = .ok op2)
    (h3 : magnetic_field s1 p1 w params1 asm1 dev1 prec = .ok op3)
    (h4 : magnetic_field s2 p2 w params2 asm2 dev2 prec = .ok op4) :
    op1.assembler.operator_descriptor =
        op2.assembler.operator_descriptor ∧
    op3.assembler.operator_descriptor =
        op4.assembler.operator_descriptor := by
  rw [electric_field_ok h1, electric_field_ok h2, magnetic_field_ok h3,
    magnetic_field_ok h4]
  exact ⟨rfl, rfl⟩

/-- C8 witness: two calls of each factory differing in space, points,
parameters and device interface yield descriptor-equal operators. -/
theorem C8_descriptor_depends_only_on_wavenumber_precision_witness :
    (PotentialOperator.mk ⟨⟨0⟩, [[0, 0, 0]],
        electric_field_descriptor ⟨1, 2⟩ none, none, "dense",
        none⟩).assembler.operator_descriptor =
      (PotentialOperator.mk ⟨⟨7⟩, [[1, 2, 3], [4, 5, 6]],
        electric_field_descriptor ⟨1, 2⟩ none, some ⟨5⟩, "dense",
        some ⟨9⟩⟩).assembler.operator_descriptor ∧
    (PotentialOperator.mk ⟨⟨0⟩, [[0, 0, 0]],
        magnetic_field_descriptor ⟨1, 2⟩ none, none, "dense",
        none⟩).assembler.operator_descriptor =
      (PotentialOperator.mk ⟨⟨7⟩, [[1, 2, 3], [4, 5, 6]],
        magnetic_field_descriptor ⟨1, 2⟩ none, some ⟨5⟩, "dense",
        some ⟨9⟩⟩).assembler.operator_descriptor :=
  C8_descriptor_depends_only_on_wavenumber_precision ⟨0⟩ ⟨7⟩
    [[0, 0, 0]] [[1, 2, 3], [4, 5, 6]] ⟨1, 2⟩ none (some ⟨9⟩)
    "dense" "dense" none (some ⟨5⟩) none _ _ _ _ rfl rfl rfl rfl

/-- C9: each factory forwards its space, points, device interface,
assembler name and parameters verbatim to the single assembler it
constructs, and the returned operator wraps exactly that assembler; the
factory itself applies no normalization or transformation to these
arguments. -/
theorem C9_arguments_forwarded_verbatim (space : Space) (points : Points)
    (wavenumber : Cplx) (parameters : Option Parameters)
    (assembler : String) (device_interface : Option DeviceInterface)
    (precision : Option Precision) (ope opm : PotentialOperator)
    (he : electric_field space points wavenumber parameters assembler
        device_interface precision = .ok ope)
    (hm : magnetic_field space points wavenumber parameters assembler
        device_interface precision = .ok opm) :
    (ope = PotentialOperator.mk ope.assembler ∧
      ope.assembler.space = space ∧ ope.assembler.points = points ∧
      ope.assembler.device_interface = device_interface ∧
      ope.assembler.assembler = assembler ∧
      ope.assembler.parameters = parameters) ∧
    (opm = PotentialOperator.mk opm.assembler ∧
      opm.assembler.space = space ∧ opm.assembler.points = points ∧
      opm.assembler.device_interface = device_interface ∧
      opm.assembler.assembler = assembler ∧
      opm.assembler.parameters = parameters) := by
  rw [electric_field_ok he, magnetic_field_ok hm]
  exact ⟨⟨rfl, rfl, rfl, rfl, rfl, rfl⟩, ⟨rfl, rfl, rfl, rfl, rfl, rfl⟩⟩

/-- C9 witness at a concrete call of each factory. -/
theorem C9_arguments_forwarded_verbatim_witness :
    ((PotentialOperator.mk ⟨⟨3⟩, [[1, 2, 3]],
        electric_field_descriptor ⟨2, 1⟩ (some .double), some ⟨4⟩,
        "dense", some ⟨5⟩⟩) = PotentialOperator.mk
          (PotentialOperator.mk ⟨⟨3⟩, [[1, 2, 3]],
            electric_field_descriptor ⟨2, 1⟩ (some .double), some ⟨4⟩,
            "dense", some ⟨5⟩⟩).assembler ∧
      (PotentialOperator.mk ⟨⟨3⟩, [[1, 2, 3]],
        electric_field_descriptor ⟨2, 1⟩ (some .double), some ⟨4⟩,
        "dense", some ⟨5⟩⟩).assembler.space = ⟨3⟩ ∧
      (PotentialOperator.mk ⟨⟨3⟩, [[1, 2, 3]],
        electric_field_descriptor ⟨2, 1⟩ (some .double), some ⟨4⟩,
        "dense", some ⟨5⟩⟩).assembler.points = [[1, 2, 3]] ∧
      (PotentialOperator.mk ⟨⟨3⟩, [[1, 2, 3]],
        electric_field_descriptor ⟨2, 1⟩ (some .double), some ⟨4⟩,
        "dense", some ⟨5⟩⟩).assembler.device_interface = some ⟨4⟩ ∧
      (PotentialOperator.mk ⟨⟨3⟩, [[1, 2, 3]],
        electric_field_descriptor ⟨2, 1⟩ (some .double), some ⟨4⟩,
        "dense", some ⟨5⟩⟩).assembler.assembler = "dense" ∧
      (PotentialOperator.mk ⟨⟨3⟩, [[1, 2, 3]],
        electric_field_descriptor ⟨2, 1⟩ (some .double), some ⟨4⟩,
        "dense", some ⟨5⟩⟩).assembler.parameters = some ⟨5⟩) ∧
    ((PotentialOperator.mk ⟨⟨3⟩, [[1, 2, 3]],
        magnetic_field_descriptor ⟨2, 1⟩ (some .double), some ⟨4⟩,
        "dense", some ⟨5⟩⟩) = PotentialOperator.mk
          (PotentialOperator.mk ⟨⟨3⟩, [[1, 2, 3]],
            magnetic_field_descriptor ⟨2, 1⟩ (some .double), some ⟨4⟩,
            "dense", some ⟨5⟩⟩).assembler ∧
      (PotentialOperator.mk ⟨⟨3⟩, [[1, 2, 3]],
        magnetic_field_descriptor ⟨2, 1⟩ (some .double), some ⟨4⟩,
        "dense", some ⟨5⟩⟩).assembler.space = ⟨3⟩ ∧
      (PotentialOperator.mk ⟨⟨3⟩, [[1, 2, 3]],
        magnetic_field_descriptor ⟨2, 1⟩ (some .double), some ⟨4⟩,
        "dense", some ⟨5⟩⟩).assembler.points = [[1, 2, 3]] ∧
      (PotentialOperator.mk ⟨⟨3⟩, [[1, 2, 3]],
        magnetic_field_descriptor ⟨2, 1⟩ (some .double), some ⟨4⟩,
        "dense", some ⟨5⟩⟩).assembler.device_interface = some ⟨4⟩ ∧
      (PotentialOperator.mk ⟨⟨3⟩, [[1, 2, 3]],
        magnetic_field_descriptor ⟨2, 1⟩ (some .double), some ⟨4⟩,
        "dense", some ⟨5⟩⟩).assembler.assembler = "dense" ∧
      (PotentialOperator.mk ⟨⟨3⟩, [[1, 2, 3]],
        magnetic_field_descriptor ⟨2, 1⟩ (some .double), some ⟨4⟩,
        "dense", some ⟨5⟩⟩).assembler.parameters = some ⟨5⟩) :=
  C9_arguments_forwarded_verbatim ⟨3⟩ [[1, 2, 3]] ⟨2, 1⟩ (some ⟨5⟩)
    "dense" (some ⟨4⟩) (some .double) _ _ rfl rfl

/-- C10: a call supplying only the three required arguments behaves
identically to a call with parameters=None, assembler="dense",
device_interface=None and precision=None: the dense backend is the
default and precision and device default to the unspecified value. -/
theorem C10_default_arguments (space : Space) (points : Points)
    (wavenumber : Cplx) :
    electric_field_call space points wavenumber none none none none =
      electric_field space points wavenumber none "dense" none none ∧
    magnetic_field_call space points wavenumber none none none none =
      magnetic_field space points wavenumber none "dense" none none :=
  ⟨rfl, rfl⟩

end Bempp
